import Mathlib

/-!
Verification development for the csvForWKT repository.

The repository derives, from a table of per-body physical parameters, a
catalog of planetary coordinate reference systems and renders each one as a
WKT2 string.  This file gives a shallow embedding of the two subsystems the
claims concern:

* the derivation pipeline of src/src/csv2WKT.py (class WKTcrs): the input
  CSV rows become ellipsoid, datum, planetodetic and projection records.
  The pandas dataframe operations are modelled row by row: every operation
  of the source is a per-row filter or map except the merges, which join on
  the Naif_id key; the input table has one row per body (one Naif_id per
  row), so a merge attaches the unique matching row and the whole pipeline
  is the per-row function lifted over the row list.  The final sort_values
  calls only permute the records and are omitted; every property proved
  below (membership, counts, absence of duplicate codes) is invariant under
  permutation.
* the WKT2 renderers of src/wkt/biaxialBodyWKT.py, src/wkt/triaxialBodyWKT.py,
  src/wkt/igeodeticwkt.py and of src/src/iprojectedwkt.py and
  src/src/biaxialBodyWKT.py.  Python Template.substitute on a literal
  template is modelled as string concatenation; a python assert is modelled
  as the error case of Except, and a renderer without an assert always
  succeeds; the python float nan sentinel of the parameter slots is
  modelled by an explicit nan constructor.
-/

namespace CsvForWKT

/-! Data model of the input CSV (naifcodes_radii_m_wAsteroids_IAU2015.csv).
One row per physical body.  The numeric columns IAU2015_Semimajor,
IAU2015_Axisb, IAU2015_Semiminor, IAU2015_Mean use -1 as the absent
sentinel; rotation and the two origin columns are nullable. -/

structure BodyRow where
  naifId : Nat
  body : String
  semimajor : Rat
  axisb : Rat
  semiminor : Rat
  mean : Rat
  rotation : Option String
  originLonPos : Option String
  originLongName : Option String
deriving DecidableEq, Repr

/-- WKTcrs.skipRecords: keep rows with
IAU2015_Semimajor, IAU2015_Axisb and IAU2015_Semiminor all different from -1. -/
def skipRecords (r : BodyRow) : Bool :=
  decide (r.semimajor ≠ -1) && decide (r.axisb ≠ -1) && decide (r.semiminor ≠ -1)

/-- The replace calls of WKTcrs.processLongitudePositive: Direct becomes west,
Retrograde becomes east, anything else is untouched. -/
def replaceRotation (s : String) : String :=
  if s = "Direct" then "west" else if s = "Retrograde" then "east" else s

/-- WKTcrs.processLongitudePositive: map Direct to west and Retrograde to east,
then force the rotation of Sun, Moon and Earth to east.  In the source the
force is the update with the historic sub-frame whose rotation column was
set to east, so it also fills a null rotation for those three bodies. -/
def processLongitudePositive (r : BodyRow) : BodyRow :=
  if r.body = "Sun" ∨ r.body = "Moon" ∨ r.body = "Earth" then
    { r with rotation := some "east" }
  else
    { r with rotation := r.rotation.map replaceRotation }

/-- WKTcrs.processZeroLongitude: null origin_lon_pos becomes "0.0" and null
origin_long_name becomes "Reference_Meridian". -/
def processZeroLongitude (r : BodyRow) : BodyRow :=
  { r with originLonPos := some (r.originLonPos.getD "0.0"),
           originLongName := some (r.originLongName.getD "Reference_Meridian") }

/-- The per-row preprocessing applied by WKTcrs.process before the record
builders run. -/
def prepRow (r : BodyRow) : BodyRow :=
  processZeroLongitude (processLongitudePositive r)

/-- The rows that enter the record builders: the skip filter, then the two
column-normalisation passes. -/
def pipelineRows (rows : List BodyRow) : List BodyRow :=
  (rows.filter skipRecords).map prepRow

/-! Ellipsoid records (WKTcrs.ellipsoid).  The source triples every row into
a SPHERE, an ELLIPSE and a TRIAXIAL candidate, assigns codes
Naif_id*100 + 0 / + 1 / + 2, then drops and rewrites candidates per the
rules below.  The empty semiMedianAxis cell is modelled as none, and the
inverseFlatenning column, assigned the empty string for every row
(line: ellipsoid.assign(inverseFlatenning="")), keeps the source
misspelling. -/

inductive Shape
  | SPHERE
  | ELLIPSE
  | TRIAXIAL
deriving DecidableEq, Repr

structure EllipsoidRec where
  authority : String
  version : Nat
  code : Nat
  name : String
  semiMajorAxis : Rat
  semiMedianAxis : Option Rat
  semiMinorAxis : Rat
  inverseFlatenning : String
  shape : Shape
  naifId : Nat
deriving DecidableEq, Repr

/-- The triaxial-body test used throughout WKTcrs.ellipsoid:
semiMajorAxis different from semiMedianAxis and semiMinorAxis different
from semiMedianAxis. -/
def isTriaxialRow (r : BodyRow) : Bool :=
  decide (r.semimajor ≠ r.axisb) && decide (r.semiminor ≠ r.axisb)

/-- The mean radius used for the SPHERE candidate: when IAU2015_Mean is the
-1 sentinel the source substitutes (semiMajor + semiMinor + semiMedian)/3. -/
def meanRadius (r : BodyRow) : Rat :=
  if r.mean = -1 then (r.semimajor + r.semiminor + r.axisb) / 3 else r.mean

/-- The SPHERE candidate of a row: code Naif_id*100; a genuinely triaxial
body uses the mean radius for both axes, otherwise the semi-major axis is
used for both; the median cell is emptied. -/
def sphereRec (r : BodyRow) : EllipsoidRec :=
  { authority := "IAU", version := 2015, code := 100 * r.naifId,
    name := r.body ++ " (2015) - Sphere",
    semiMajorAxis := if isTriaxialRow r then meanRadius r else r.semimajor,
    semiMedianAxis := none,
    semiMinorAxis := if isTriaxialRow r then meanRadius r else r.semimajor,
    inverseFlatenning := "", shape := Shape.SPHERE, naifId := r.naifId }

/-- The ELLIPSE candidate of a row: code Naif_id*100 + 1; the median cell is
emptied. -/
def ellipseRec (r : BodyRow) : EllipsoidRec :=
  { authority := "IAU", version := 2015, code := 100 * r.naifId + 1,
    name := r.body ++ " (2015)",
    semiMajorAxis := r.semimajor,
    semiMedianAxis := none,
    semiMinorAxis := r.semiminor,
    inverseFlatenning := "", shape := Shape.ELLIPSE, naifId := r.naifId }

/-- The TRIAXIAL candidate of a row: code Naif_id*100 + 2; all three axes
kept. -/
def triaxialRec (r : BodyRow) : EllipsoidRec :=
  { authority := "IAU", version := 2015, code := 100 * r.naifId + 2,
    name := r.body ++ " (2015)",
    semiMajorAxis := r.semimajor,
    semiMedianAxis := some r.axisb,
    semiMinorAxis := r.semiminor,
    inverseFlatenning := "", shape := Shape.TRIAXIAL, naifId := r.naifId }

/-- WKTcrs.ellipsoid restricted to one row.  The SPHERE candidate is always
kept; the ELLIPSE candidate is dropped when IAU2015_Mean is -1 and also
when the body is genuinely triaxial; the TRIAXIAL candidate is kept exactly
when the body is genuinely triaxial.  The source then sorts by code, which
for one row is already this order. -/
def ellipsoidRecsOfRow (r : BodyRow) : List EllipsoidRec :=
  [sphereRec r]
  ++ (if r.mean ≠ -1 ∧ isTriaxialRow r = false then [ellipseRec r] else [])
  ++ (if isTriaxialRow r then [triaxialRec r] else [])

/-! Datum records (WKTcrs.datum): one per ellipsoid record, merged with the
row on Naif_id to pick up the body name and the prime-meridian columns; the
ellipsoid reference is authority:version:code. -/

structure DatumRec where
  naifId : Nat
  shape : Shape
  authority : String
  version : Nat
  code : Nat
  name : String
  body : String
  ellipsoid : String
  primeMeridianName : Option String
  primeMeridianValue : Option String
deriving DecidableEq, Repr

def datumOfEllipsoid (r : BodyRow) (e : EllipsoidRec) : DatumRec :=
  { naifId := e.naifId, shape := e.shape, authority := e.authority,
    version := e.version, code := e.code, name := e.name, body := r.body,
    ellipsoid := e.authority ++ ":" ++ toString e.version ++ ":" ++ toString e.code,
    primeMeridianName := r.originLongName,
    primeMeridianValue := r.originLonPos }

def datumRecsOfRow (r : BodyRow) : List DatumRec :=
  (ellipsoidRecsOfRow r).map (datumOfEllipsoid r)

/-! Planetodetic records (WKTcrs.planetodetic).  naifId, shape, body and
ographic are provenance fields: the source carries Naif_id, type and Body
through the computation and drops Body from the final table; ographic
records which of the two branches of splitDatumCase built the record.  tag
is the id column of the source (the variant tag 0..4). -/

structure PlanetodeticRec where
  naifId : Nat
  shape : Shape
  body : String
  ographic : Bool
  tag : Nat
  authority : String
  version : Nat
  code : Nat
  name : String
  datum : String
  csType : String
  longitudeDirection : String
deriving DecidableEq, Repr

/-- The ocentric variant tag per shape: sphere 0, ellipse 2, triaxial 4. -/
def ocentricTag : Shape → Nat
  | Shape.SPHERE => 0
  | Shape.ELLIPSE => 2
  | Shape.TRIAXIAL => 4

/-- The ocentric branch for one datum.  The source drops the Sun and Moon
datums whose type is not SPHERE (the historicalReasons query), recomputes
the code as Naif_id*100 plus the ocentric tag, forces longitudeDirection to
east, sets csType spherical and suffixes the name. -/
def ocentricOfDatum (r : BodyRow) (d : DatumRec) : List PlanetodeticRec :=
  if (r.body = "Sun" ∨ r.body = "Moon") ∧ d.shape ≠ Shape.SPHERE then []
  else
    [{ naifId := d.naifId, shape := d.shape, body := r.body, ographic := false,
       tag := ocentricTag d.shape,
       authority := d.authority, version := d.version,
       code := 100 * d.naifId + ocentricTag d.shape,
       name := d.name ++ " / Ocentric", datum := d.ellipsoid,
       csType := "spherical", longitudeDirection := "east" }]

/-- The ographic branch for one datum.  splitDatumCase keeps the rows whose
longitudeDirection is not null and whose body is neither Sun nor Moon; the
SPHERE rows are then dropped; codes are Naif_id*100 + 1 for ELLIPSE and
Naif_id*100 + 3 for TRIAXIAL; csType is ellipsoidal and the direction is
the processed rotation of the row. -/
def ographicOfDatum (r : BodyRow) (d : DatumRec) : List PlanetodeticRec :=
  match r.rotation with
  | none => []
  | some dir =>
    if r.body = "Sun" ∨ r.body = "Moon" then []
    else
      match d.shape with
      | Shape.SPHERE => []
      | Shape.ELLIPSE =>
        [{ naifId := d.naifId, shape := Shape.ELLIPSE, body := r.body,
           ographic := true, tag := 1,
           authority := d.authority, version := d.version,
           code := 100 * d.naifId + 1,
           name := d.name ++ " / Ographic", datum := d.ellipsoid,
           csType := "ellipsoidal", longitudeDirection := dir }]
      | Shape.TRIAXIAL =>
        [{ naifId := d.naifId, shape := Shape.TRIAXIAL, body := r.body,
           ographic := true, tag := 3,
           authority := d.authority, version := d.version,
           code := 100 * d.naifId + 3,
           name := d.name ++ " / Ographic", datum := d.ellipsoid,
           csType := "ellipsoidal", longitudeDirection := dir }]

/-- WKTcrs.planetodetic restricted to one (preprocessed) row: the ocentric
records then the ographic records (the concat of the source; the final sort
by code only permutes the list). -/
def planetodeticRecsOfRow (r : BodyRow) : List PlanetodeticRec :=
  (datumRecsOfRow r).flatMap (ocentricOfDatum r)
  ++ (datumRecsOfRow r).flatMap (ographicOfDatum r)

/-! Projection records (WKTcrs.projection).  The fixed in-source projection
table: proj_id, id (the variant tag the row applies to), name and method.
The parameter columns of the table are not read by any property below and
are omitted from the embedding. -/

structure ProjEntry where
  projId : Nat
  tag : Nat
  name : String
  method : String
deriving DecidableEq, Repr

def projectionData : List ProjEntry :=
  [ ⟨10, 0, "Equirectangular, clon=0", "Equirectangular"⟩,
    ⟨11, 1, "Equirectangular, clon=0", "Equirectangular"⟩,
    ⟨12, 2, "Equirectangular, clon=0", "Equirectangular"⟩,
    ⟨13, 3, "Equirectangular, clon=0", "Equirectangular"⟩,
    ⟨14, 4, "Equirectangular, clon=0", "Equirectangular"⟩,
    ⟨15, 0, "Equirectangular, clon=180", "Equirectangular"⟩,
    ⟨16, 1, "Equirectangular, clon=180", "Equirectangular"⟩,
    ⟨17, 2, "Equirectangular, clon=180", "Equirectangular"⟩,
    ⟨18, 3, "Equirectangular, clon=180", "Equirectangular"⟩,
    ⟨19, 4, "Equirectangular, clon=180", "Equirectangular"⟩,
    ⟨20, 0, "Sinusoidal, clon=0", "Sinusoidal"⟩,
    ⟨21, 1, "Sinusoidal, clon=0", "Sinusoidal"⟩,
    ⟨22, 2, "Sinusoidal, clon=0", "Sinusoidal"⟩,
    ⟨23, 3, "Sinusoidal, clon=0", "Sinusoidal"⟩,
    ⟨24, 4, "Sinusoidal, clon=0", "Sinusoidal"⟩,
    ⟨25, 0, "Sinusoidal, clon=180", "Sinusoidal"⟩,
    ⟨26, 1, "Sinusoidal, clon=180", "Sinusoidal"⟩,
    ⟨27, 2, "Sinusoidal, clon=180", "Sinusoidal"⟩,
    ⟨28, 3, "Sinusoidal, clon=180", "Sinusoidal"⟩,
    ⟨29, 4, "Sinusoidal, clon=180", "Sinusoidal"⟩,
    ⟨30, 0, "North Polar, clon=0", "Stereographic"⟩,
    ⟨31, 1, "North Polar, clon=0", "Stereographic"⟩,
    ⟨32, 2, "North Polar, clon=0", "Stereographic"⟩,
    ⟨33, 3, "North Polar, clon=0", "Stereographic"⟩,
    ⟨34, 4, "North Polar, clon=0", "Stereographic"⟩,
    ⟨35, 0, "South Polar, clon=0", "Stereographic"⟩,
    ⟨36, 1, "South Polar, clon=0", "Stereographic"⟩,
    ⟨37, 2, "South Polar, clon=0", "Stereographic"⟩,
    ⟨38, 3, "South Polar, clon=0", "Stereographic"⟩,
    ⟨39, 4, "South Polar, clon=0", "Stereographic"⟩,
    ⟨40, 0, "Mollweide, clon=0", "Mollweide"⟩,
    ⟨41, 1, "Mollweide, clon=0", "Mollweide"⟩,
    ⟨42, 2, "Mollweide, clon=0", "Mollweide"⟩,
    ⟨43, 3, "Mollweide, clon=0", "Mollweide"⟩,
    ⟨44, 4, "Mollweide, clon=0", "Mollweide"⟩,
    ⟨45, 0, "Mollweide, clon=180", "Mollweide"⟩,
    ⟨46, 1, "Mollweide, clon=180", "Mollweide"⟩,
    ⟨47, 2, "Mollweide, clon=180", "Mollweide"⟩,
    ⟨48, 3, "Mollweide, clon=180", "Mollweide"⟩,
    ⟨49, 4, "Mollweide, clon=180", "Mollweide"⟩,
    ⟨50, 0, "Robinson, clon=0", "Robinson"⟩,
    ⟨51, 1, "Robinson, clon=0", "Robinson"⟩,
    ⟨52, 2, "Robinson, clon=0", "Robinson"⟩,
    ⟨53, 3, "Robinson, clon=0", "Robinson"⟩,
    ⟨54, 4, "Robinson, clon=0", "Robinson"⟩,
    ⟨55, 0, "Robinson, clon=180", "Robinson"⟩,
    ⟨56, 1, "Robinson, clon=180", "Robinson"⟩,
    ⟨57, 2, "Robinson, clon=180", "Robinson"⟩,
    ⟨58, 3, "Robinson, clon=180", "Robinson"⟩,
    ⟨59, 4, "Robinson, clon=180", "Robinson"⟩ ]

/-- A projected CRS record.  baseNaifId, baseTag, baseCode and projId are
provenance fields recording the merged planetodetic row and the projection
table row. -/
structure ProjectionRec where
  baseNaifId : Nat
  baseTag : Nat
  baseCode : Nat
  projId : Nat
  authority : String
  version : String
  code : Nat
  name : String
  baseCRS : String
  method : String
deriving DecidableEq, Repr

/-- The projection merge for one planetodetic record: the projection rows
whose id equals the planetodetic id, the baseCRS string
authority:version:code of the planetodetic record, and the code of the
planetodetic record incremented by proj_id. -/
def projectionsOfPlanetodetic (p : PlanetodeticRec) : List ProjectionRec :=
  (projectionData.filter (fun e => e.tag == p.tag)).map (fun e =>
    { baseNaifId := p.naifId, baseTag := p.tag, baseCode := p.code,
      projId := e.projId,
      authority := "IAU", version := "2005",
      code := p.code + e.projId,
      name := e.name, baseCRS := p.authority ++ ":" ++ toString p.version ++ ":" ++ toString p.code,
      method := e.method })

/-! The four catalog tables produced by WKTcrs.process. -/

def ellipsoidRecords (rows : List BodyRow) : List EllipsoidRec :=
  (pipelineRows rows).flatMap ellipsoidRecsOfRow

def datumRecords (rows : List BodyRow) : List DatumRec :=
  (pipelineRows rows).flatMap datumRecsOfRow

def planetodeticRecords (rows : List BodyRow) : List PlanetodeticRec :=
  (pipelineRows rows).flatMap planetodeticRecsOfRow

def projectionRecords (rows : List BodyRow) : List ProjectionRec :=
  (planetodeticRecords rows).flatMap projectionsOfPlanetodetic

/-- Every CRS code of the catalog: the planetodetic codes followed by the
projected codes. -/
def allCodes (rows : List BodyRow) : List Nat :=
  (planetodeticRecords rows).map (fun p => p.code)
  ++ (projectionRecords rows).map (fun q => q.code)

/-! Renderer embedding.  A pandas Series of cartographic elements, as read
by the classes of src/wkt/biaxialBodyWKT.py and src/wkt/triaxialBodyWKT.py.
Template substitution stringifies every value, so each field is modelled as
the string that the substitution inserts. -/

structure CrsData where
  name : String
  datum_name : String
  ellipsoid_name : String
  semiMajorAxis : String
  semiMedianAxis : String
  semiMinorAxis : String
  inverseFlatenning : String
  primeMeridianName : String
  primeMeridianValue : String
  longitudeDirection : String
  authority : String
  code : String
  version : String
  remark : String
deriving DecidableEq, Repr

/-- The anchor computation shared by BiaxialBody.compute_datum and
TriaxialBody.compute_datum (identical code in both classes): the empty
string when primeMeridianName is the Reference_Meridian sentinel, the
ANCHOR clause of the anchor template otherwise. -/
def anchorClause (d : CrsData) : String :=
  if d.primeMeridianName = "Reference_Meridian" then ""
  else ",\n            ANCHOR[\"" ++ d.primeMeridianName ++ ": " ++ d.primeMeridianValue ++ "\"]"

/-- BiaxialBody.compute_datum of src/wkt/biaxialBodyWKT.py: the DATUM
template with radius bound to semiMajorAxis and inverse_flat bound to the
inverseFlatenning cell, the anchor spliced after the ELLIPSOID element. -/
def biaxialDatum (d : CrsData) : String :=
  "DATUM[\"" ++ d.datum_name ++ "\",\n            ELLIPSOID[\"" ++ d.ellipsoid_name
  ++ "\", " ++ d.semiMajorAxis ++ ", " ++ d.inverseFlatenning
  ++ ", LENGTHUNIT[\"metre\", 1]]" ++ anchorClause d
  ++ "\n        ],\n        PRIMEM[\"Reference Meridian\", 0.0, ANGLEUNIT[\"degree\", 0.017453292519943295, ID[\"EPSG\", 9122]]]"

/-- TriaxialBody.compute_datum of src/wkt/triaxialBodyWKT.py: the TRIAXIAL
DATUM template with the three semi axes, the anchor spliced after the
TRIAXIAL element. -/
def triaxialDatum (d : CrsData) : String :=
  "DATUM[\"" ++ d.datum_name ++ "\",\n            TRIAXIAL[\"" ++ d.ellipsoid_name
  ++ "\", " ++ d.semiMajorAxis ++ ", " ++ d.semiMedianAxis ++ ", " ++ d.semiMinorAxis
  ++ ", LENGTHUNIT[\"metre\", 1, ID[\"EPSG\", 9001]]]" ++ anchorClause d
  ++ "\n        ],\n        PRIMEM[\"Reference Meridian\", 0.0, ANGLEUNIT[\"degree\", 0.017453292519943295, ID[\"EPSG\", 9122]]]"

/-! The coordinate-system fragments of the eight variant classes.  Each cs
property is a function of the loaded Series; a python assert is the error
case, and a property with no assert always returns ok. -/

/-- The ellipsoidal two-axis fragment with the longitude axis direction
substituted (template of PlanetOgraphicEllipsoid and OgraphicTriaxial). -/
def ellipsoidalCsFragment (dir : String) : String :=
  "CS[ellipsoidal, 2],\n    AXIS[\"Latitude (B)\", north, ORDER[1]],\n    AXIS[\"Longitude (L)\", "
  ++ dir
  ++ ", ORDER[2]],\n    ANGLEUNIT[\"degree\", 0.017453292519943295, ID[\"EPSG\", 9122]]"

/-- The spherical three-axis fragment with the longitude axis direction
substituted (template of PlanetOcentricEllipsoid and OcentricTriaxial). -/
def sphericalCsFragment (dir : String) : String :=
  "CS[spherical, 3],\n    AXIS[\"Planetocentric latitude (U)\", north, ORDER[1], ANGLEUNIT[\"degree\", 0.017453292519943295, ID[\"EPSG\", 9122]]],\n    AXIS[\"Planetocentric longitude (V)\", "
  ++ dir
  ++ ", ORDER[2], ANGLEUNIT[\"degree\", 0.017453292519943295, ID[\"EPSG\", 9122]]],\n    AXIS[\"Radius (R)\", up, ORDER[3], LENGTHUNIT[\"metre\", 1, ID[\"EPSG\", 9001]]]"

/-- The Cartesian two-axis fragment of every projected variant, with the
longitude axis label and direction substituted. -/
def projectedCsFragment (longAxis dir : String) : String :=
  "CS[Cartesian, 2],\n    AXIS[\"" ++ longAxis ++ "\", " ++ dir
  ++ ", ORDER[1]],\n    AXIS[\"Northing (N)\", north, ORDER[2]],\n    LENGTHUNIT[\"metre\", 1, ID[\"EPSG\", 9001]]"

/-- PlanetOgraphicEllipsoid.cs: no precondition, substitutes the record
direction. -/
def planetOgraphicEllipsoidCs (d : CrsData) : Except String String :=
  Except.ok (ellipsoidalCsFragment d.longitudeDirection)

/-- PlanetOcentricEllipsoid.cs: no precondition in the source, substitutes
the record direction whatever it is. -/
def planetOcentricEllipsoidCs (d : CrsData) : Except String String :=
  Except.ok (sphericalCsFragment d.longitudeDirection)

/-- ProjectedOcentricEllipsoid.cs: asserts that the direction is east, then
substitutes the direction and the matching axis label. -/
def projectedOcentricEllipsoidCs (d : CrsData) : Except String String :=
  if d.longitudeDirection = "east" then
    Except.ok (projectedCsFragment
      (if d.longitudeDirection = "east" then "Easting (E)" else "Westing (W)")
      d.longitudeDirection)
  else Except.error ("longitude Direction must be east for ocentric CRS, not " ++ d.longitudeDirection)

/-- ProjectedOgraphicEllipsoid.cs: no precondition, the axis label follows
the record direction. -/
def projectedOgraphicEllipsoidCs (d : CrsData) : Except String String :=
  Except.ok (projectedCsFragment
    (if d.longitudeDirection = "east" then "Easting (E)" else "Westing (W)")
    d.longitudeDirection)

/-- OcentricTriaxial.cs of src/wkt/triaxialBodyWKT.py: asserts east, then
substitutes the record direction. -/
def ocentricTriaxialCs (d : CrsData) : Except String String :=
  if d.longitudeDirection = "east" then
    Except.ok (sphericalCsFragment d.longitudeDirection)
  else Except.error ("longitude Direction must be east, not " ++ d.longitudeDirection)

/-- OgraphicTriaxial.cs of src/wkt/triaxialBodyWKT.py: no precondition,
substitutes the record direction. -/
def ographicTriaxialCs (d : CrsData) : Except String String :=
  Except.ok (ellipsoidalCsFragment d.longitudeDirection)

/-- ProjectedOcentricTriaxial.cs: asserts east, then substitutes the east
literal and the Easting label. -/
def projectedOcentricTriaxialCs (d : CrsData) : Except String String :=
  if d.longitudeDirection = "east" then
    Except.ok (projectedCsFragment "Easting (E)" "east")
  else Except.error ("longitude Direction must be east, not " ++ d.longitudeDirection)

/-- ProjectedOgraphicTriaxial.cs of src/wkt/triaxialBodyWKT.py: no
precondition, and the substitution binds the east literal and the Easting
label, not the record direction. -/
def projectedOgraphicTriaxialCs (_d : CrsData) : Except String String :=
  Except.ok (projectedCsFragment "Easting (E)" "east")

/-! The compose-and-get state machine of IGeodeticCRS
(src/wkt/igeodeticwkt.py) and IProjectedCRS (src/src/iprojectedwkt.py).
The wkt attribute starts as the python None, modelled as none; computeWKT
substitutes the fragments into the top-level template and stores the text;
the getter returns the attribute as it is. -/

structure GeodeticFragments where
  name : String
  datum : String
  cs : String
  authority : String
  code : String
  version : String
  remark : String
deriving DecidableEq, Repr

/-- The GEODCRS top-level template of IGeodeticCRS. -/
def geodeticCrsText (f : GeodeticFragments) : String :=
  "GEODCRS[\"" ++ f.name ++ "\",\n    " ++ f.datum ++ ",\n    " ++ f.cs
  ++ ",\n    ID[\"" ++ f.authority ++ "\", " ++ f.code ++ ", " ++ f.version
  ++ "], REMARK[\"" ++ f.remark ++ "\"]\n]\n"

structure GeodeticState where
  wkt : Option String
deriving DecidableEq, Repr

/-- The state after IGeodeticCRS init: the wkt attribute is None. -/
def geodeticInitState : GeodeticState := { wkt := none }

/-- IGeodeticCRS.computeWKT: substitute the fragments and store the text. -/
def computeWKTGeodetic (f : GeodeticFragments) (_s : GeodeticState) : GeodeticState :=
  { wkt := some (geodeticCrsText f) }

/-- The wkt getter of IGeodeticCRS: returns the attribute as it is. -/
def getWKTGeodetic (s : GeodeticState) : Option String :=
  s.wkt

structure ProjectedFragments where
  projection_name : String
  keywordOdetic : String
  name : String
  datum : String
  conversion_name : String
  method_name : String
  method_id : String
  params : String
  cs : String
  authority : String
  code : String
  version : String
deriving DecidableEq, Repr

/-- The PROJCRS top-level template of IProjectedCRS. -/
def projectedCrsText (f : ProjectedFragments) : String :=
  "PROJCRS[\"" ++ f.projection_name ++ "\",\n    " ++ f.keywordOdetic
  ++ "[\"" ++ f.name ++ "\",\n        " ++ f.datum
  ++ "\n    ],\n    CONVERSION[\"" ++ f.conversion_name
  ++ "\",\n        METHOD[\"" ++ f.method_name ++ "\"" ++ f.method_id
  ++ "],\n        " ++ f.params ++ "\n    ],\n    " ++ f.cs
  ++ ",\n    ID[\"" ++ f.authority ++ "\", " ++ f.code ++ ", " ++ f.version ++ "]\n]\n"

structure ProjectedState where
  wkt : Option String
deriving DecidableEq, Repr

/-- The state after IProjectedCRS init: the wkt attribute is None. -/
def projectedInitState : ProjectedState := { wkt := none }

/-- IProjectedCRS.computeWKT: substitute the fragments and store the text. -/
def computeWKTProjected (f : ProjectedFragments) (_s : ProjectedState) : ProjectedState :=
  { wkt := some (projectedCrsText f) }

/-- IProjectedCRS.getWKT: returns the attribute as it is. -/
def getWKTProjected (s : ProjectedState) : Option String :=
  s.wkt

/-! The projection parameter rendering of IProjectedCRS.computeParameters
(src/src/iprojectedwkt.py) and ProjectionEllipsoid.computeWKT
(src/src/biaxialBodyWKT.py).  A slot value is a python float that is either
the nan sentinel or a number; the number is modelled by the string its
substitution prints. -/

inductive PyFloat
  | nan
  | val (render : String)
deriving DecidableEq, Repr

def PyFloat.isnan : PyFloat → Bool
  | PyFloat.nan => true
  | PyFloat.val _ => false

/-- An entry of an authority mapping: the list [authority, code] or
[authority, code, unit]; the unit (index 2) is absent for method entries. -/
structure AuthEntry where
  authority : String
  codeValue : Nat
  unit : Option String
deriving DecidableEq, Repr

def angleUnit9102 : String :=
  "ANGLEUNIT[\"degree\", 0.017453292519943295, ID[\"EPSG\", 9102]]"

def lengthUnit9001 : String :=
  "LENGTHUNIT[\"metre\", 1, ID[\"EPSG\", 9001]]"

def scaleUnit9201 : String :=
  "SCALEUNIT[\"unity\",1.0, ID[\"EPSG\", 9201]]"

/-- The authorityMapping dict of IProjectedCRS (src/src/iprojectedwkt.py). -/
def authorityMapping (k : String) : Option AuthEntry :=
  if k = "Lambert Azimuthal Equal Area (Spherical)" then some ⟨"EPSG", 1027, none⟩ else
  if k = "Equidistant Cylindrical" then some ⟨"EPSG", 1028, none⟩ else
  if k = "Equidistant Cylindrical (Spherical)" then some ⟨"EPSG", 1029, none⟩ else
  if k = "Scale factor at natural origin" then some ⟨"EPSG", 8805, some scaleUnit9201⟩ else
  if k = "False easting" then some ⟨"EPSG", 8806, some lengthUnit9001⟩ else
  if k = "False northing" then some ⟨"EPSG", 8807, some lengthUnit9001⟩ else
  if k = "Latitude of natural origin" then some ⟨"EPSG", 8801, some angleUnit9102⟩ else
  if k = "Longitude of natural origin" then some ⟨"EPSG", 8802, some angleUnit9102⟩ else
  if k = "Latitude of false origin" then some ⟨"EPSG", 8821, some angleUnit9102⟩ else
  if k = "Longitude of false origin" then some ⟨"EPSG", 8822, some angleUnit9102⟩ else
  if k = "Latitude of 1st standard parallel" then some ⟨"EPSG", 8823, some angleUnit9102⟩ else
  if k = "Latitude of 2nd standard parallel" then some ⟨"EPSG", 8824, some angleUnit9102⟩ else
  if k = "Easting at false origin" then some ⟨"EPSG", 8826, some lengthUnit9001⟩ else
  if k = "Northing at false origin" then some ⟨"EPSG", 8827, some lengthUnit9001⟩ else
  if k = "Sinusoidal" then some ⟨"GeoTIFF", 24, none⟩ else
  if k = "Robinson" then some ⟨"GeoTIFF", 23, none⟩ else
  if k = "Transverse Mercator" then some ⟨"EPSG", 9807, none⟩ else
  if k = "Lambert Conic Conformal (2SP)" then some ⟨"EPSG", 9802, none⟩ else
  if k = "Stereographic" then some ⟨"EPSG", 9810, none⟩ else
  if k = "Lambert Azimuthal Equal Area" then some ⟨"EPSG", 9820, none⟩ else
  if k = "Albers Equal Area" then some ⟨"EPSG", 9822, none⟩ else
  if k = "Orthographic" then some ⟨"EPSG", 9840, none⟩ else
  none

/-- The authorityMapping dict of ProjectionEllipsoid
(src/src/biaxialBodyWKT.py). -/
def authorityMappingEllipsoid (k : String) : Option AuthEntry :=
  if k = "Scale factor at natural origin" then some ⟨"EPSG", 8805, some scaleUnit9201⟩ else
  if k = "False easting" then some ⟨"EPSG", 8806, some lengthUnit9001⟩ else
  if k = "False northing" then some ⟨"EPSG", 8807, some lengthUnit9001⟩ else
  if k = "Longitude of natural origin" then some ⟨"EPSG", 8802, some angleUnit9102⟩ else
  if k = "Latitude of natural origin" then some ⟨"EPSG", 8801, some angleUnit9102⟩ else
  if k = "Equidistant Cylindrical" then some ⟨"EPSG", 1028, none⟩ else
  if k = "Equidistant Cylindrical (Spherical)" then some ⟨"EPSG", 1029, none⟩ else
  if k = "Stereographic" then some ⟨"EPSG", 9810, none⟩ else
  if k = "Sinusoidal" then some ⟨"GeoTIFF", 24, none⟩ else
  if k = "Robinson" then some ⟨"GeoTIFF", 23, none⟩ else
  if k = "Latitude of 1st standard parallel" then some ⟨"EPSG", 8823, some angleUnit9102⟩ else
  if k = "Longitude of false origin" then some ⟨"EPSG", 8822, some angleUnit9102⟩ else
  none

/-- The six parameter slots of a projection record, in slot order. -/
structure ProjParams where
  parameter1Name : String
  parameter1Value : PyFloat
  parameter2Name : String
  parameter2Value : PyFloat
  parameter3Name : String
  parameter3Value : PyFloat
  parameter4Name : String
  parameter4Value : PyFloat
  parameter5Name : String
  parameter5Value : PyFloat
  parameter6Name : String
  parameter6Value : PyFloat
deriving DecidableEq, Repr

/-- The paramsList of IProjectedCRS.computeParameters: the six slots in
the fixed order 1 to 6. -/
def paramsList (d : ProjParams) : List (String × PyFloat) :=
  [ (d.parameter1Name, d.parameter1Value),
    (d.parameter2Name, d.parameter2Value),
    (d.parameter3Name, d.parameter3Value),
    (d.parameter4Name, d.parameter4Value),
    (d.parameter5Name, d.parameter5Value),
    (d.parameter6Name, d.parameter6Value) ]

/-- The PARAMETER template of the projected variant classes. -/
def paramTemplate (key val unit codeAuth : String) (codeValue : Nat) : String :=
  "PARAMETER[\"" ++ key ++ "\", " ++ val ++ ", " ++ unit
  ++ ", ID[\"" ++ codeAuth ++ "\", " ++ toString codeValue ++ "]]"

/-- One non-nan slot of IProjectedCRS.computeParameters: the dict lookup
raises KeyError on a missing name, the index [2] access raises on an entry
without a unit, otherwise the PARAMETER text is produced. -/
def renderParam (nm v : String) : Except String String :=
  match authorityMapping nm with
  | none => Except.error ("KeyError: " ++ nm)
  | some e =>
    match e.unit with
    | none => Except.error ("IndexError: " ++ nm)
    | some u => Except.ok (paramTemplate nm v u e.authority e.codeValue)

/-- The slot loop of IProjectedCRS.computeParameters: a nan value is
skipped, any other value is rendered and appended. -/
def computeParamsAux : List (String × PyFloat) → Except String (List String)
  | [] => Except.ok []
  | (nm, v) :: rest =>
    match v with
    | PyFloat.nan => computeParamsAux rest
    | PyFloat.val s =>
      match renderParam nm s with
      | Except.error e => Except.error e
      | Except.ok r =>
        match computeParamsAux rest with
        | Except.error e => Except.error e
        | Except.ok rs => Except.ok (r :: rs)

/-- IProjectedCRS.computeParameters (src/src/iprojectedwkt.py). -/
def computeParameters (d : ProjParams) : Except String (List String) :=
  computeParamsAux (paramsList d)

/-- The rendering of a single slot, ignoring errors: none for a nan slot or
a failing lookup, the PARAMETER text otherwise.  Used to state what the
loop produces. -/
def renderSlot (nv : String × PyFloat) : Option String :=
  match nv.2 with
  | PyFloat.nan => none
  | PyFloat.val s => (renderParam nv.1 s).toOption

/-- One non-nan slot of ProjectionEllipsoid.computeWKT
(src/src/biaxialBodyWKT.py): same as renderParam but with the smaller
mapping of that class and its template that ends with a comma separator. -/
def renderParamEllipsoid (nm v : String) : Except String String :=
  match authorityMappingEllipsoid nm with
  | none => Except.error ("KeyError: " ++ nm)
  | some e =>
    match e.unit with
    | none => Except.error ("IndexError: " ++ nm)
    | some u => Except.ok (paramTemplate nm v u e.authority e.codeValue ++ ", ")

/-- The params accumulation loop of ProjectionEllipsoid.computeWKT: a nan
value is skipped, any other value is rendered and concatenated. -/
def computeParamsStringAux : List (String × PyFloat) → Except String String
  | [] => Except.ok ""
  | (nm, v) :: rest =>
    match v with
    | PyFloat.nan => computeParamsStringAux rest
    | PyFloat.val s =>
      match renderParamEllipsoid nm s with
      | Except.error e => Except.error e
      | Except.ok r =>
        match computeParamsStringAux rest with
        | Except.error e => Except.error e
        | Except.ok rs => Except.ok (r ++ rs)

/-- The params string of ProjectionEllipsoid.computeWKT. -/
def computeParamsString (d : ProjParams) : Except String String :=
  computeParamsStringAux (paramsList d)

/-- The slot rendering of ProjectionEllipsoid, ignoring errors. -/
def renderSlotEllipsoid (nv : String × PyFloat) : Option String :=
  match nv.2 with
  | PyFloat.nan => none
  | PyFloat.val s => (renderParamEllipsoid nv.1 s).toOption

/-! Helper notions used by the catalog-numbering proofs. -/

/-- The five variant tags in the order the per-row builder can emit them
(ocentric sphere, ellipse, triaxial, then ographic ellipse, triaxial). -/
def masterTags : List Nat := [0, 2, 4, 1, 3]

/-- The projected-code offsets available for a variant tag: tag + proj_id
over the projection rows of that tag. -/
def projOffsets (t : Nat) : List Nat :=
  (projectionData.filter (fun e => e.tag == t)).map (fun e => t + e.projId)

/-- The code offsets emitted for a list of variant tags: the tags
themselves (planetodetic codes) followed by the projected offsets of each
tag. -/
def offsetsOfTags (tags : List Nat) : List Nat :=
  tags ++ tags.flatMap projOffsets

/-- The variant tags of the planetodetic records of one row. -/
def tagsOfRow (r : BodyRow) : List Nat :=
  (planetodeticRecsOfRow r).map (fun p => p.tag)

/-- The planetodetic codes of one row, followed by its projected codes. -/
def rowCodes (r : BodyRow) : List Nat :=
  (planetodeticRecsOfRow r).map (fun p => p.code)
  ++ ((planetodeticRecsOfRow r).flatMap projectionsOfPlanetodetic).map (fun q => q.code)

/-! Concrete inputs used by the witness and counterexample theorems. -/

/-- A biaxial body row: the median axis equals the major axis, the rotation
is Direct and a prime meridian is declared. -/
def marsRow : BodyRow :=
  { naifId := 499, body := "Mars", semimajor := 3396190, axisb := 3396190,
    semiminor := 3376200, mean := 3389500, rotation := some "Direct",
    originLonPos := some "47.95137", originLongName := some "Viking 1 lander" }

/-- A triaxial body row: the three axes are pairwise distinct. -/
def phobosRow : BodyRow :=
  { naifId := 401, body := "Phobos", semimajor := 13000, axisb := 11400,
    semiminor := 9100, mean := 11080, rotation := some "Direct",
    originLonPos := none, originLongName := none }

/-- The Sun row: equal axes, so a SPHERE and an ELLIPSE record are
produced; the body is one of the historical exceptions. -/
def sunRow : BodyRow :=
  { naifId := 10, body := "Sun", semimajor := 695700000, axisb := 695700000,
    semiminor := 695700000, mean := 695700000, rotation := none,
    originLonPos := none, originLongName := none }

/-- An Earth row with no declared rotation sense. -/
def earthRow : BodyRow :=
  { naifId := 399, body := "Earth", semimajor := 6378137, axisb := 6378137,
    semiminor := 6356752, mean := 6371008, rotation := some "Direct",
    originLonPos := none, originLongName := none }

/-- The ELLIPSE datum record the pipeline produces for sunRow. -/
def sunEllipseDatum : DatumRec :=
  { naifId := 10, shape := Shape.ELLIPSE, authority := "IAU", version := 2015,
    code := 1001, name := "Sun (2015)", body := "Sun", ellipsoid := "IAU:2015:1001",
    primeMeridianName := some "Reference_Meridian", primeMeridianValue := some "0.0" }

/-- The ELLIPSE datum record the pipeline produces for marsRow. -/
def marsEllipseDatum : DatumRec :=
  { naifId := 499, shape := Shape.ELLIPSE, authority := "IAU", version := 2015,
    code := 49901, name := "Mars (2015)", body := "Mars", ellipsoid := "IAU:2015:49901",
    primeMeridianName := some "Viking 1 lander", primeMeridianValue := some "47.95137" }

/-- The ographic planetodetic record the pipeline produces for marsRow. -/
def marsOgraphicRec : PlanetodeticRec :=
  { naifId := 499, shape := Shape.ELLIPSE, body := "Mars", ographic := true,
    tag := 1, authority := "IAU", version := 2015, code := 49901,
    name := "Mars (2015) / Ographic", datum := "IAU:2015:49901",
    csType := "ellipsoidal", longitudeDirection := "west" }

/-- A cartographic Series whose longitudeDirection is west and whose prime
meridian is the sentinel. -/
def westData : CrsData :=
  { name := "Faux (2015) / Ocentric", datum_name := "Faux (2015)",
    ellipsoid_name := "Faux (2015)", semiMajorAxis := "1000.0",
    semiMedianAxis := "900.0", semiMinorAxis := "800.0",
    inverseFlatenning := "0", primeMeridianName := "Reference_Meridian",
    primeMeridianValue := "0.0", longitudeDirection := "west",
    authority := "IAU", code := "99902", version := "2015",
    remark := "no remark" }

/-- A cartographic Series whose prime meridian is not the sentinel. -/
def anchoredData : CrsData :=
  { name := "Mars (2015) / Ographic", datum_name := "Mars (2015)",
    ellipsoid_name := "Mars (2015)", semiMajorAxis := "3396190.0",
    semiMedianAxis := "3396190.0", semiMinorAxis := "3376200.0",
    inverseFlatenning := "169.8944472236118",
    primeMeridianName := "Viking 1 lander", primeMeridianValue := "47.95137",
    longitudeDirection := "west",
    authority := "IAU", code := "49901", version := "2015",
    remark := "no remark" }

/-- The parameter slots of a Sinusoidal projection row: three declared
slots, three nan slots. -/
def sinusoidalParams : ProjParams :=
  { parameter1Name := "False easting", parameter1Value := PyFloat.val "0",
    parameter2Name := "False northing", parameter2Value := PyFloat.val "0",
    parameter3Name := "Longitude of false origin", parameter3Value := PyFloat.val "0",
    parameter4Name := "", parameter4Value := PyFloat.nan,
    parameter5Name := "", parameter5Value := PyFloat.nan,
    parameter6Name := "", parameter6Value := PyFloat.nan }

/-! Basic lemmas about the preprocessing and the per-row builders. -/

theorem prepRow_naifId (r : BodyRow) : (prepRow r).naifId = r.naifId := by
  by_cases h : r.body = "Sun" ∨ r.body = "Moon" ∨ r.body = "Earth" <;>
    simp [prepRow, processZeroLongitude, processLongitudePositive, h]

theorem prepRow_body (r : BodyRow) : (prepRow r).body = r.body := by
  by_cases h : r.body = "Sun" ∨ r.body = "Moon" ∨ r.body = "Earth" <;>
    simp [prepRow, processZeroLongitude, processLongitudePositive, h]

theorem prepRow_semimajor (r : BodyRow) : (prepRow r).semimajor = r.semimajor := by
  by_cases h : r.body = "Sun" ∨ r.body = "Moon" ∨ r.body = "Earth" <;>
    simp [prepRow, processZeroLongitude, processLongitudePositive, h]

theorem prepRow_axisb (r : BodyRow) : (prepRow r).axisb = r.axisb := by
  by_cases h : r.body = "Sun" ∨ r.body = "Moon" ∨ r.body = "Earth" <;>
    simp [prepRow, processZeroLongitude, processLongitudePositive, h]

theorem prepRow_semiminor (r : BodyRow) : (prepRow r).semiminor = r.semiminor := by
  by_cases h : r.body = "Sun" ∨ r.body = "Moon" ∨ r.body = "Earth" <;>
    simp [prepRow, processZeroLongitude, processLongitudePositive, h]

theorem prepRow_mean (r : BodyRow) : (prepRow r).mean = r.mean := by
  by_cases h : r.body = "Sun" ∨ r.body = "Moon" ∨ r.body = "Earth" <;>
    simp [prepRow, processZeroLongitude, processLongitudePositive, h]

theorem prepRow_rotation (r : BodyRow) :
    (prepRow r).rotation =
      if r.body = "Sun" ∨ r.body = "Moon" ∨ r.body = "Earth" then some "east"
      else r.rotation.map replaceRotation := by
  by_cases h : r.body = "Sun" ∨ r.body = "Moon" ∨ r.body = "Earth" <;>
    simp [prepRow, processZeroLongitude, processLongitudePositive, h]

theorem isTriaxialRow_eq_true {r : BodyRow} :
    isTriaxialRow r = true ↔ (r.semimajor ≠ r.axisb ∧ r.semiminor ≠ r.axisb) := by
  simp [isTriaxialRow]

theorem isTriaxialRow_eq_false {r : BodyRow} :
    isTriaxialRow r = false ↔ (r.semimajor = r.axisb ∨ r.semiminor = r.axisb) := by
  rw [← Bool.not_eq_true, isTriaxialRow_eq_true, not_and_or, not_not, not_not]

theorem mem_ellipsoidRecsOfRow {r : BodyRow} {e : EllipsoidRec} :
    e ∈ ellipsoidRecsOfRow r ↔
      e = sphereRec r ∨
      ((r.mean ≠ -1 ∧ isTriaxialRow r = false) ∧ e = ellipseRec r) ∨
      (isTriaxialRow r = true ∧ e = triaxialRec r) := by
  constructor
  · intro h
    rcases List.mem_append.mp h with h2 | hB
    · rcases List.mem_append.mp h2 with hs | hA
      · exact Or.inl (List.mem_singleton.mp hs)
      · refine Or.inr (Or.inl ?_)
        by_cases hc : r.mean ≠ -1 ∧ isTriaxialRow r = false
        · rw [if_pos hc] at hA
          exact ⟨hc, List.mem_singleton.mp hA⟩
        · rw [if_neg hc] at hA
          exact absurd hA (List.not_mem_nil _)
    · refine Or.inr (Or.inr ?_)
      by_cases hc : isTriaxialRow r = true
      · rw [if_pos hc] at hB
        exact ⟨hc, List.mem_singleton.mp hB⟩
      · rw [if_neg hc] at hB
        exact absurd hB (List.not_mem_nil _)
  · intro h
    rcases h with rfl | ⟨hc, rfl⟩ | ⟨hc, rfl⟩
    · exact List.mem_append.mpr (Or.inl (List.mem_append.mpr (Or.inl (List.mem_singleton.mpr rfl))))
    · refine List.mem_append.mpr (Or.inl (List.mem_append.mpr (Or.inr ?_)))
      rw [if_pos hc]
      exact List.mem_singleton.mpr rfl
    · refine List.mem_append.mpr (Or.inr ?_)
      rw [if_pos hc]
      exact List.mem_singleton.mpr rfl

theorem ellipsoidRecsOfRow_naifId {r : BodyRow} {e : EllipsoidRec}
    (h : e ∈ ellipsoidRecsOfRow r) : e.naifId = r.naifId := by
  rcases mem_ellipsoidRecsOfRow.mp h with rfl | ⟨_, rfl⟩ | ⟨_, rfl⟩ <;> rfl

theorem ellipsoidRecsOfRow_flattening {r : BodyRow} {e : EllipsoidRec}
    (h : e ∈ ellipsoidRecsOfRow r) : e.inverseFlatenning = "" := by
  rcases mem_ellipsoidRecsOfRow.mp h with rfl | ⟨_, rfl⟩ | ⟨_, rfl⟩ <;> rfl

theorem datumRecsOfRow_ids {r : BodyRow} {d : DatumRec}
    (h : d ∈ datumRecsOfRow r) : d.naifId = r.naifId ∧ d.body = r.body := by
  obtain ⟨e, he, rfl⟩ := List.mem_map.mp h
  exact ⟨ellipsoidRecsOfRow_naifId he, rfl⟩

theorem mem_ocentricOfDatum {r : BodyRow} {d : DatumRec} {p : PlanetodeticRec}
    (h : p ∈ ocentricOfDatum r d) :
    p.naifId = d.naifId ∧ p.shape = d.shape ∧ p.body = r.body ∧ p.ographic = false ∧
    p.tag = ocentricTag d.shape ∧ p.code = 100 * d.naifId + ocentricTag d.shape ∧
    p.longitudeDirection = "east" ∧ p.csType = "spherical" ∧ p.datum = d.ellipsoid ∧
    ¬((r.body = "Sun" ∨ r.body = "Moon") ∧ d.shape ≠ Shape.SPHERE) := by
  unfold ocentricOfDatum at h
  split at h
  · exact absurd h (List.not_mem_nil _)
  · rename_i hc
    have := List.mem_singleton.mp h
    subst this
    exact ⟨rfl, rfl, rfl, rfl, rfl, rfl, rfl, rfl, rfl, hc⟩

theorem mem_ographicOfDatum {r : BodyRow} {d : DatumRec} {p : PlanetodeticRec}
    (h : p ∈ ographicOfDatum r d) :
    p.naifId = d.naifId ∧ p.shape = d.shape ∧ p.body = r.body ∧ p.ographic = true ∧
    ((d.shape = Shape.ELLIPSE ∧ p.tag = 1) ∨ (d.shape = Shape.TRIAXIAL ∧ p.tag = 3)) ∧
    p.code = 100 * d.naifId + p.tag ∧
    r.rotation = some p.longitudeDirection ∧ p.csType = "ellipsoidal" ∧ p.datum = d.ellipsoid ∧
    ¬(r.body = "Sun" ∨ r.body = "Moon") := by
  unfold ographicOfDatum at h
  split at h
  · exact absurd h (List.not_mem_nil _)
  · rename_i dir hdir
    split at h
    · exact absurd h (List.not_mem_nil _)
    · rename_i hsm
      split at h
      · exact absurd h (List.not_mem_nil _)
      · rename_i hsh
        have := List.mem_singleton.mp h
        subst this
        exact ⟨rfl, hsh.symm, rfl, rfl, Or.inl ⟨hsh, rfl⟩, rfl, hdir, rfl, rfl, hsm⟩
      · rename_i hsh
        have := List.mem_singleton.mp h
        subst this
        exact ⟨rfl, hsh.symm, rfl, rfl, Or.inr ⟨hsh, rfl⟩, rfl, hdir, rfl, rfl, hsm⟩

theorem mem_planetodeticRecsOfRow {r : BodyRow} {p : PlanetodeticRec}
    (h : p ∈ planetodeticRecsOfRow r) :
    ∃ d ∈ datumRecsOfRow r, p ∈ ocentricOfDatum r d ∨ p ∈ ographicOfDatum r d := by
  unfold planetodeticRecsOfRow at h
  rcases List.mem_append.mp h with h2 | h2 <;>
    obtain ⟨d, hd, hp⟩ := List.mem_flatMap.mp h2
  · exact ⟨d, hd, Or.inl hp⟩
  · exact ⟨d, hd, Or.inr hp⟩

theorem planetodeticRecsOfRow_spec {r : BodyRow} {p : PlanetodeticRec}
    (h : p ∈ planetodeticRecsOfRow r) :
    p.naifId = r.naifId ∧ p.body = r.body ∧ p.code = 100 * r.naifId + p.tag ∧
    ((p.ographic = false ∧ p.tag = ocentricTag p.shape) ∨
     (p.ographic = true ∧
       ((p.shape = Shape.ELLIPSE ∧ p.tag = 1) ∨ (p.shape = Shape.TRIAXIAL ∧ p.tag = 3)))) := by
  obtain ⟨d, hd, hcase⟩ := mem_planetodeticRecsOfRow h
  have hdn : d.naifId = r.naifId := (datumRecsOfRow_ids hd).1
  rcases hcase with hoc | hog
  · obtain ⟨hn, hs, hb, ho, ht, hcode, -⟩ := mem_ocentricOfDatum hoc
    refine ⟨hn.trans hdn, hb, ?_, Or.inl ⟨ho, by rw [ht, hs]⟩⟩
    rw [hcode, hdn, ht]
  · obtain ⟨hn, hs, hb, ho, htag, hcode, -⟩ := mem_ographicOfDatum hog
    refine ⟨hn.trans hdn, hb, ?_, Or.inr ⟨ho, ?_⟩⟩
    · rw [hcode, hdn]
    · rcases htag with ⟨h1, h2⟩ | ⟨h1, h2⟩
      · exact Or.inl ⟨hs.trans h1, h2⟩
      · exact Or.inr ⟨hs.trans h1, h2⟩

theorem mem_pipelineRows {rows : List BodyRow} {r : BodyRow} :
    r ∈ pipelineRows rows ↔ ∃ r0 ∈ rows, skipRecords r0 = true ∧ r = prepRow r0 := by
  simp only [pipelineRows, List.mem_map, List.mem_filter]
  constructor
  · rintro ⟨r0, ⟨hm, hs⟩, rfl⟩
    exact ⟨r0, hm, hs, rfl⟩
  · rintro ⟨r0, hm, hs, rfl⟩
    exact ⟨r0, ⟨hm, hs⟩, rfl⟩

/-! Claim C2: the inverseFlatenning column.  The source assigns the empty
string to the column once and never computes a flattening, so every
produced record carries the empty string, not 0 and not the biaxial
formula. -/

/-- C2: evaluation at a failing input: for a biaxial body row the pipeline
produces a SPHERE record and an ELLIPSE record and both carry the empty
string in the inverseFlatenning column, where the claim requires 0 for the
sphere and semiMajorAxis / (semiMajorAxis - semiMinorAxis) for the
ellipse. -/
theorem C2_inverse_flattening_never_computed :
    (ellipsoidRecords [marsRow]).map (fun e => e.inverseFlatenning) = ["", ""] ∧
    (∃ e ∈ ellipsoidRecords [marsRow], e.shape = Shape.SPHERE ∧ e.inverseFlatenning = "") ∧
    (∃ e ∈ ellipsoidRecords [marsRow],
      e.shape = Shape.ELLIPSE ∧ e.inverseFlatenning = "" ∧ e.semiMajorAxis ≠ e.semiMinorAxis) := by
  refine ⟨by decide, by decide, by decide⟩

/-! Claim C5: longitude direction of the ographic records. -/

/-- C5: in every ographic planetodetic record the longitude direction is
west for a Direct rotation and east for a Retrograde rotation, except that
the bodies Sun, Moon and Earth always get east whatever the declared
rotation sense. -/
theorem C5_ographic_longitude_direction (row : BodyRow) (p : PlanetodeticRec)
    (hp : p ∈ planetodeticRecsOfRow (prepRow row)) (hog : p.ographic = true) :
    ((row.body = "Sun" ∨ row.body = "Moon" ∨ row.body = "Earth") →
      p.longitudeDirection = "east") ∧
    (¬(row.body = "Sun" ∨ row.body = "Moon" ∨ row.body = "Earth") →
      (row.rotation = some "Direct" → p.longitudeDirection = "west") ∧
      (row.rotation = some "Retrograde" → p.longitudeDirection = "east")) := by
  obtain ⟨d, hd, hcase⟩ := mem_planetodeticRecsOfRow hp
  rcases hcase with hoc | hog2
  · have hfalse := (mem_ocentricOfDatum hoc).2.2.2.1
    rw [hog] at hfalse
    exact absurd hfalse (by decide)
  · have hrot : (prepRow row).rotation = some p.longitudeDirection :=
      (mem_ographicOfDatum hog2).2.2.2.2.2.2.1
    rw [prepRow_rotation] at hrot
    constructor
    · intro hb
      rw [if_pos hb] at hrot
      exact (Option.some.inj hrot).symm
    · intro hb
      rw [if_neg hb] at hrot
      constructor <;> intro hr <;> rw [hr] at hrot <;>
        simpa [replaceRotation] using hrot.symm

/-- C5 witness: the pipeline applied to the Mars row (Direct rotation, not
a historical exception) carries west into its ographic record. -/
theorem C5_witness : marsOgraphicRec.longitudeDirection = "west" :=
  ((C5_ographic_longitude_direction marsRow marsOgraphicRec (by decide) rfl).2
    (by decide)).1 (by decide)

/-! Claim C3: shape eligibility of the ellipsoid records. -/

/-- C3: for every retained input row a SPHERE record is produced; an
ELLIPSE record is produced only if the median axis equals one of the other
two axes (the median is never the absent sentinel after the skip filter); a
TRIAXIAL record only if the three axes are pairwise distinct, the axes
being ordered as the schema documents (semiminor below median below
semimajor); and a row with pairwise distinct axes yields a TRIAXIAL record
and no ELLIPSE record for that body. -/
theorem C3_shape_eligibility (rows : List BodyRow)
    (hnodup : (rows.map BodyRow.naifId).Nodup)
    (row : BodyRow) (hmem : row ∈ rows) (hskip : skipRecords row = true)
    (horder : row.semiminor ≤ row.axisb ∧ row.axisb ≤ row.semimajor) :
    (∃ e ∈ ellipsoidRecords rows, e.naifId = row.naifId ∧ e.shape = Shape.SPHERE) ∧
    (∀ e ∈ ellipsoidRecords rows, e.naifId = row.naifId → e.shape = Shape.ELLIPSE →
      row.semimajor = row.axisb ∨ row.semiminor = row.axisb) ∧
    (∀ e ∈ ellipsoidRecords rows, e.naifId = row.naifId → e.shape = Shape.TRIAXIAL →
      row.semimajor ≠ row.axisb ∧ row.axisb ≠ row.semiminor ∧ row.semimajor ≠ row.semiminor) ∧
    ((row.semimajor ≠ row.axisb ∧ row.axisb ≠ row.semiminor) →
      (∃ e ∈ ellipsoidRecords rows, e.naifId = row.naifId ∧ e.shape = Shape.TRIAXIAL) ∧
      (∀ e ∈ ellipsoidRecords rows, e.naifId = row.naifId → e.shape ≠ Shape.ELLIPSE)) := by
  have hprep : prepRow row ∈ pipelineRows rows :=
    mem_pipelineRows.mpr ⟨row, hmem, hskip, rfl⟩
  have hprov : ∀ {e : EllipsoidRec}, e ∈ ellipsoidRecords rows → e.naifId = row.naifId →
      e ∈ ellipsoidRecsOfRow (prepRow row) := by
    intro e he hn
    obtain ⟨r1, hr1, hpe⟩ := List.mem_flatMap.mp he
    obtain ⟨r0, hr0, hs0, rfl⟩ := mem_pipelineRows.mp hr1
    have : r0.naifId = row.naifId := by
      have := ellipsoidRecsOfRow_naifId hpe
      rw [prepRow_naifId] at this
      rw [← this, ← hn]
    have : r0 = row := List.inj_on_of_nodup_map hnodup hr0 hmem this
    rw [this] at hpe
    exact hpe
  refine ⟨?_, ?_, ?_, ?_⟩
  · refine ⟨sphereRec (prepRow row), ?_, ?_, rfl⟩
    · exact List.mem_flatMap.mpr ⟨prepRow row, hprep,
        mem_ellipsoidRecsOfRow.mpr (Or.inl rfl)⟩
    · rw [show (sphereRec (prepRow row)).naifId = (prepRow row).naifId from rfl,
        prepRow_naifId]
  · intro e he hn hsh
    have hpe := hprov he hn
    rcases mem_ellipsoidRecsOfRow.mp hpe with rfl | ⟨⟨-, hc⟩, rfl⟩ | ⟨-, rfl⟩
    · exact absurd hsh (by simp [sphereRec])
    · rw [isTriaxialRow_eq_false, prepRow_semimajor, prepRow_axisb, prepRow_semiminor] at hc
      exact hc
    · exact absurd hsh (by simp [triaxialRec])
  · intro e he hn hsh
    have hpe := hprov he hn
    rcases mem_ellipsoidRecsOfRow.mp hpe with rfl | ⟨-, rfl⟩ | ⟨hc, rfl⟩
    · exact absurd hsh (by simp [sphereRec])
    · exact absurd hsh (by simp [ellipseRec])
    · rw [isTriaxialRow_eq_true, prepRow_semimajor, prepRow_axisb, prepRow_semiminor] at hc
      obtain ⟨h1, h2⟩ := hc
      refine ⟨h1, fun h => h2 h.symm, ?_⟩
      have hlt1 : row.semiminor < row.axisb := lt_of_le_of_ne horder.1 h2
      have hlt2 : row.axisb < row.semimajor := lt_of_le_of_ne horder.2 (fun h => h1 h.symm)
      exact ne_of_gt (hlt1.trans hlt2)
  · intro hdist
    have htri : isTriaxialRow (prepRow row) = true := by
      rw [isTriaxialRow_eq_true, prepRow_semimajor, prepRow_axisb, prepRow_semiminor]
      exact ⟨hdist.1, fun h => hdist.2 h.symm⟩
    constructor
    · refine ⟨triaxialRec (prepRow row), ?_, ?_, rfl⟩
      · exact List.mem_flatMap.mpr ⟨prepRow row, hprep,
          mem_ellipsoidRecsOfRow.mpr (Or.inr (Or.inr ⟨htri, rfl⟩))⟩
      · rw [show (triaxialRec (prepRow row)).naifId = (prepRow row).naifId from rfl,
          prepRow_naifId]
    · intro e he hn hsh
      have hpe := hprov he hn
      rcases mem_ellipsoidRecsOfRow.mp hpe with rfl | ⟨⟨-, hc⟩, rfl⟩ | ⟨-, rfl⟩
      · exact absurd hsh (by simp [sphereRec])
      · rw [htri] at hc
        cases hc
      · exact absurd hsh (by simp [triaxialRec])

/-- C3 witness: the statement instantiated at a triaxial row. -/
theorem C3_witness :
    (∃ e ∈ ellipsoidRecords [phobosRow], e.naifId = phobosRow.naifId ∧ e.shape = Shape.TRIAXIAL) ∧
    (∀ e ∈ ellipsoidRecords [phobosRow], e.naifId = phobosRow.naifId → e.shape ≠ Shape.ELLIPSE) :=
  (C3_shape_eligibility [phobosRow] (by decide) phobosRow (by decide) (by decide)
    (by decide)).2.2.2 (by decide)

/-! Claim C1: the catalog numbering.  The offsets a single row can emit are
its variant tags together with tag + proj_id for the matching projection
rows; all such offsets are below 100 and pairwise distinct, so codes of one
row never collide, and rows with distinct Naif ids occupy distinct
hundreds. -/

theorem tagsOfRow_sublist (r : BodyRow) : (tagsOfRow r).Sublist masterTags := by
  by_cases hsm : r.body = "Sun" ∨ r.body = "Moon" <;>
    by_cases htri : isTriaxialRow r = true <;>
      by_cases hmean : r.mean = -1 <;>
        rcases hrot : r.rotation with _ | dir <;>
          simp [tagsOfRow, planetodeticRecsOfRow, datumRecsOfRow, ellipsoidRecsOfRow,
            ocentricOfDatum, ographicOfDatum, datumOfEllipsoid, sphereRec, ellipseRec,
            triaxialRec, ocentricTag, masterTags, hsm, htri, hmean, hrot]

theorem planetodeticRecsOfRow_codes (r : BodyRow) :
    (planetodeticRecsOfRow r).map (fun p => p.code)
      = (tagsOfRow r).map (fun t => 100 * r.naifId + t) := by
  unfold tagsOfRow
  rw [List.map_map]
  exact List.map_congr_left (fun p hp => (planetodeticRecsOfRow_spec hp).2.2.1)

theorem projectionsOfPlanetodetic_codes {p : PlanetodeticRec}
    (hcode : p.code = 100 * p.naifId + p.tag) :
    (projectionsOfPlanetodetic p).map (fun q => q.code)
      = (projOffsets p.tag).map (fun o => 100 * p.naifId + o) := by
  unfold projectionsOfPlanetodetic projOffsets
  rw [List.map_map, List.map_map]
  refine List.map_congr_left (fun e he => ?_)
  simp only [Function.comp]
  rw [hcode]
  omega

theorem flatMap_congr_mem {α β : Type} {l : List α} {f g : α → List β}
    (h : ∀ a ∈ l, f a = g a) : l.flatMap f = l.flatMap g := by
  induction l with
  | nil => rfl
  | cons a t ih =>
    rw [List.flatMap_cons, List.flatMap_cons, h a (List.mem_cons_self a t),
      ih (fun b hb => h b (List.mem_cons_of_mem a hb))]

theorem projectedCodesOfRow (r : BodyRow) :
    ((planetodeticRecsOfRow r).flatMap projectionsOfPlanetodetic).map (fun q => q.code)
      = ((tagsOfRow r).flatMap projOffsets).map (fun o => 100 * r.naifId + o) := by
  rw [List.map_flatMap]
  unfold tagsOfRow
  rw [List.flatMap_map, List.map_flatMap]
  refine flatMap_congr_mem (fun p hp => ?_)
  have hspec := planetodeticRecsOfRow_spec hp
  have hcode : p.code = 100 * p.naifId + p.tag := by rw [hspec.1, hspec.2.2.1]
  rw [projectionsOfPlanetodetic_codes hcode, hspec.1]

theorem offsetsOfTags_master_nodup : (offsetsOfTags masterTags).Nodup := by decide

theorem offsetsOfTags_master_lt : ∀ o ∈ offsetsOfTags masterTags, o < 100 := by decide

theorem flatMap_sublist_of_sublist {α β : Type} (f : α → List β) {l1 l2 : List α}
    (h : l1.Sublist l2) : (l1.flatMap f).Sublist (l2.flatMap f) := by
  induction h with
  | slnil => exact List.Sublist.refl _
  | cons a h ih =>
    rw [List.flatMap_cons]
    exact ih.trans (List.sublist_append_right _ _)
  | cons₂ a h ih =>
    rw [List.flatMap_cons, List.flatMap_cons]
    exact ih.append_left _

theorem offsetsOfTags_sublist (r : BodyRow) :
    (offsetsOfTags (tagsOfRow r)).Sublist (offsetsOfTags masterTags) :=
  List.Sublist.append (tagsOfRow_sublist r)
    (flatMap_sublist_of_sublist projOffsets (tagsOfRow_sublist r))

theorem rowCodes_eq (r : BodyRow) :
    rowCodes r = (offsetsOfTags (tagsOfRow r)).map (fun o => 100 * r.naifId + o) := by
  unfold rowCodes offsetsOfTags
  rw [List.map_append, planetodeticRecsOfRow_codes, projectedCodesOfRow]

theorem rowCodes_nodup (r : BodyRow) : (rowCodes r).Nodup := by
  rw [rowCodes_eq]
  refine List.Nodup.map (fun a b hab => by omega) ?_
  exact List.Nodup.sublist (offsetsOfTags_sublist r) offsetsOfTags_master_nodup

theorem rowCodes_div {r : BodyRow} {c : Nat} (h : c ∈ rowCodes r) :
    c / 100 = r.naifId := by
  rw [rowCodes_eq] at h
  obtain ⟨o, ho, rfl⟩ := List.mem_map.mp h
  have hlt : o < 100 := offsetsOfTags_master_lt o ((offsetsOfTags_sublist r).subset ho)
  omega

theorem flatMap_append_perm {α β : Type} (f g : α → List β) (l : List α) :
    List.Perm (l.flatMap f ++ l.flatMap g) (l.flatMap (fun x => f x ++ g x)) := by
  induction l with
  | nil => simp
  | cons a t ih =>
    simp only [List.flatMap_cons]
    have h1 : List.Perm (t.flatMap f ++ (g a ++ t.flatMap g))
        (g a ++ (t.flatMap f ++ t.flatMap g)) := by
      rw [← List.append_assoc, ← List.append_assoc]
      exact List.Perm.append_right _ List.perm_append_comm
    have h2 : List.Perm (f a ++ (t.flatMap f ++ (g a ++ t.flatMap g)))
        (f a ++ (g a ++ (t.flatMap f ++ t.flatMap g))) := List.Perm.append_left _ h1
    have h3 : List.Perm (f a ++ (g a ++ (t.flatMap f ++ t.flatMap g)))
        (f a ++ (g a ++ t.flatMap (fun x => f x ++ g x))) :=
      List.Perm.append_left _ (List.Perm.append_left _ ih)
    have h4 := h2.trans h3
    rw [List.append_assoc, List.append_assoc]
    exact h4

theorem allCodes_perm (rows : List BodyRow) :
    List.Perm (allCodes rows) ((pipelineRows rows).flatMap rowCodes) := by
  simp only [allCodes, planetodeticRecords, projectionRecords, rowCodes]
  rw [List.map_flatMap, List.flatMap_assoc, List.map_flatMap]
  exact flatMap_append_perm _ _ _

theorem pipelineRows_naifId_nodup {rows : List BodyRow}
    (h : (rows.map BodyRow.naifId).Nodup) :
    ((pipelineRows rows).map BodyRow.naifId).Nodup := by
  unfold pipelineRows
  rw [List.map_map]
  have hcongr : List.map (BodyRow.naifId ∘ prepRow) (rows.filter skipRecords)
      = List.map BodyRow.naifId (rows.filter skipRecords) :=
    List.map_congr_left (fun r _ => prepRow_naifId r)
  rw [hcongr]
  exact List.Nodup.sublist (List.Sublist.map _ (List.filter_sublist rows)) h

theorem allCodes_nodup {rows : List BodyRow}
    (h : (rows.map BodyRow.naifId).Nodup) : (allCodes rows).Nodup := by
  refine List.Perm.nodup (allCodes_perm rows).symm ?_
  rw [List.nodup_flatMap]
  refine ⟨fun r _ => rowCodes_nodup r, ?_⟩
  have hpw : (pipelineRows rows).Pairwise (fun a b => a.naifId ≠ b.naifId) :=
    List.pairwise_map.mp (pipelineRows_naifId_nodup h)
  refine hpw.imp ?_
  intro a b hab
  show List.Disjoint (rowCodes a) (rowCodes b)
  intro c hca hcb
  exact hab ((rowCodes_div hca).symm.trans (rowCodes_div hcb))

/-- C1: every planetodetic record has code Naif_id*100 + tag with the tag
determined by the shape and the ocentric/ographic convention (0 sphere
ocentric, 1 ellipse ographic, 2 ellipse ocentric, 3 triaxial ographic, 4
triaxial ocentric), and code mod 100 and code div 100 recover the tag and
the body id; every projected record has the code of its base planetodetic
record incremented by the proj_id offset of its projection row; and over
input rows with pairwise distinct Naif ids the codes of the whole catalog
are pairwise distinct. -/
theorem C1_catalog_codes (rows : List BodyRow)
    (hnodup : (rows.map BodyRow.naifId).Nodup) :
    (∀ p ∈ planetodeticRecords rows,
      p.code = 100 * p.naifId + p.tag ∧
      ((p.ographic = false ∧ p.shape = Shape.SPHERE ∧ p.tag = 0) ∨
       (p.ographic = true ∧ p.shape = Shape.ELLIPSE ∧ p.tag = 1) ∨
       (p.ographic = false ∧ p.shape = Shape.ELLIPSE ∧ p.tag = 2) ∨
       (p.ographic = true ∧ p.shape = Shape.TRIAXIAL ∧ p.tag = 3) ∨
       (p.ographic = false ∧ p.shape = Shape.TRIAXIAL ∧ p.tag = 4)) ∧
      p.code % 100 = p.tag ∧ p.code / 100 = p.naifId) ∧
    (∀ q ∈ projectionRecords rows,
      q.code = q.baseCode + q.projId ∧
      ∃ p ∈ planetodeticRecords rows,
        p.code = q.baseCode ∧ p.naifId = q.baseNaifId ∧ p.tag = q.baseTag) ∧
    (allCodes rows).Nodup := by
  refine ⟨?_, ?_, allCodes_nodup hnodup⟩
  · intro p hp
    obtain ⟨r, hr, hpr⟩ := List.mem_flatMap.mp hp
    obtain ⟨hn, -, hcode, hvar⟩ := planetodeticRecsOfRow_spec hpr
    have hcode2 : p.code = 100 * p.naifId + p.tag := by rw [hn, hcode]
    have hvar2 :
        (p.ographic = false ∧ p.shape = Shape.SPHERE ∧ p.tag = 0) ∨
        (p.ographic = true ∧ p.shape = Shape.ELLIPSE ∧ p.tag = 1) ∨
        (p.ographic = false ∧ p.shape = Shape.ELLIPSE ∧ p.tag = 2) ∨
        (p.ographic = true ∧ p.shape = Shape.TRIAXIAL ∧ p.tag = 3) ∨
        (p.ographic = false ∧ p.shape = Shape.TRIAXIAL ∧ p.tag = 4) := by
      rcases hvar with ⟨ho, ht⟩ | ⟨ho, ⟨hs, ht⟩ | ⟨hs, ht⟩⟩
      · rcases hsh : p.shape with _ | _ | _ <;> rw [hsh] at ht <;>
          simp only [ocentricTag] at ht
        · exact Or.inl ⟨ho, rfl, ht⟩
        · exact Or.inr (Or.inr (Or.inl ⟨ho, rfl, ht⟩))
        · exact Or.inr (Or.inr (Or.inr (Or.inr ⟨ho, rfl, ht⟩)))

      · exact Or.inr (Or.inl ⟨ho, hs, ht⟩)
      · exact Or.inr (Or.inr (Or.inr (Or.inl ⟨ho, hs, ht⟩)))
    have htag : p.tag < 100 := by
      rcases hvar2 with ⟨-, -, ht⟩ | ⟨-, -, ht⟩ | ⟨-, -, ht⟩ | ⟨-, -, ht⟩ | ⟨-, -, ht⟩ <;> omega
    refine ⟨hcode2, hvar2, ?_, ?_⟩ <;> omega
  · intro q hq
    obtain ⟨p, hp, hqp⟩ := List.mem_flatMap.mp hq
    unfold projectionsOfPlanetodetic at hqp
    obtain ⟨e, -, rfl⟩ := List.mem_map.mp hqp
    exact ⟨rfl, p, hp, rfl, rfl, rfl⟩

/-- C1 witness: the catalog built from two concrete rows with distinct Naif
ids has pairwise distinct codes. -/
theorem C1_witness : (allCodes [marsRow, phobosRow]).Nodup :=
  (C1_catalog_codes [marsRow, phobosRow] (by decide)).2.2

/-! Claim C4: the ocentric record count per datum.  The source drops the
Sun and Moon datums of non-SPHERE shape from the ocentric branch, so those
datums get no ocentric planetodetic record while every other datum gets
exactly one. -/

theorem countP_ocentricOfDatum {r : BodyRow} {d d2 : DatumRec} (hn : d2.naifId = d.naifId) :
    List.countP (fun p => decide (p.ographic = false ∧ p.naifId = d.naifId ∧ p.shape = d.shape))
        (ocentricOfDatum r d2)
      = if (r.body = "Sun" ∨ r.body = "Moon") ∧ d2.shape ≠ Shape.SPHERE then 0
        else if d2.shape = d.shape then 1 else 0 := by
  unfold ocentricOfDatum
  split
  · rfl
  · rename_i hc
    by_cases hsh : d2.shape = d.shape
    · rw [if_pos hsh]
      simp [List.countP_cons, hn, hsh]
    · rw [if_neg hsh]
      simp [List.countP_cons, hsh]

theorem ographic_countP_zero (r : BodyRow) (d : DatumRec) (l : List DatumRec) :
    List.countP (fun p => decide (p.ographic = false ∧ p.naifId = d.naifId ∧ p.shape = d.shape))
        (l.flatMap (ographicOfDatum r)) = 0 := by
  rw [List.countP_eq_zero]
  intro p hp
  obtain ⟨d2, -, hpd⟩ := List.mem_flatMap.mp hp
  have ho := (mem_ographicOfDatum hpd).2.2.2.1
  simp [ho]

theorem datumRecsOfRow_shapes_nodup (r : BodyRow) :
    ((datumRecsOfRow r).map DatumRec.shape).Nodup := by
  unfold datumRecsOfRow
  rw [List.map_map]
  have hcongr : List.map (DatumRec.shape ∘ datumOfEllipsoid r) (ellipsoidRecsOfRow r)
      = List.map EllipsoidRec.shape (ellipsoidRecsOfRow r) :=
    List.map_congr_left (fun e _ => rfl)
  rw [hcongr]
  by_cases htri : isTriaxialRow r = true <;> by_cases hmean : r.mean = -1 <;>
    simp [ellipsoidRecsOfRow, sphereRec, ellipseRec, triaxialRec, htri, hmean]

theorem countP_oc_flatMap (r : BodyRow) (d : DatumRec) :
    ∀ l : List DatumRec, (l.map DatumRec.shape).Nodup → d ∈ l →
      (∀ d2 ∈ l, d2.naifId = d.naifId) →
      List.countP (fun p => decide (p.ographic = false ∧ p.naifId = d.naifId ∧ p.shape = d.shape))
          (l.flatMap (ocentricOfDatum r))
        = if (r.body = "Sun" ∨ r.body = "Moon") ∧ d.shape ≠ Shape.SPHERE then 0 else 1 := by
  intro l
  induction l with
  | nil => intro _ hd _; cases hd
  | cons x t ih =>
    intro hnd hd hnaif
    have hnd2 : ¬x.shape ∈ t.map DatumRec.shape ∧ (t.map DatumRec.shape).Nodup :=
      List.nodup_cons.mp (by simpa using hnd)
    rw [List.flatMap_cons, List.countP_append]
    have hx : x.naifId = d.naifId := hnaif x (List.mem_cons_self x t)
    rcases List.mem_cons.mp hd with rfl | hdt
    · have ht0 : List.countP
          (fun p => decide (p.ographic = false ∧ p.naifId = d.naifId ∧ p.shape = d.shape))
          (t.flatMap (ocentricOfDatum r)) = 0 := by
        rw [List.countP_eq_zero]
        intro p hp
        obtain ⟨d2, hd2, hpd⟩ := List.mem_flatMap.mp hp
        have hsh2 : p.shape = d2.shape := (mem_ocentricOfDatum hpd).2.1
        have hne : d2.shape ≠ d.shape := by
          intro he
          have hmem : d2.shape ∈ t.map DatumRec.shape := List.mem_map.mpr ⟨d2, hd2, rfl⟩
          rw [he] at hmem
          exact hnd2.1 hmem
        simp [hsh2, hne]
      rw [ht0, countP_ocentricOfDatum hx]
      split_ifs with h1 h2
      · rfl
      · rfl
      · exact absurd rfl h2
    · have hxne : x.shape ≠ d.shape := by
        intro he
        have hmem : d.shape ∈ t.map DatumRec.shape := List.mem_map.mpr ⟨d, hdt, rfl⟩
        rw [← he] at hmem
        exact hnd2.1 hmem
      have hx0 : List.countP
          (fun p => decide (p.ographic = false ∧ p.naifId = d.naifId ∧ p.shape = d.shape))
          (ocentricOfDatum r x) = 0 := by
        rw [countP_ocentricOfDatum hx, if_neg hxne]
        split_ifs <;> rfl
      rw [hx0, Nat.zero_add]
      exact ih hnd2.2 hdt (fun d2 h2 => hnaif d2 (List.mem_cons_of_mem x h2))

theorem countP_planetodetic_zero {r : BodyRow} {d : DatumRec} (hne : r.naifId ≠ d.naifId) :
    List.countP (fun p => decide (p.ographic = false ∧ p.naifId = d.naifId ∧ p.shape = d.shape))
        (planetodeticRecsOfRow r) = 0 := by
  rw [List.countP_eq_zero]
  intro p hp
  have hn := (planetodeticRecsOfRow_spec hp).1
  simp [hn, hne]

theorem countP_planetodetic_single {r : BodyRow} {d : DatumRec} (hd : d ∈ datumRecsOfRow r) :
    List.countP (fun p => decide (p.ographic = false ∧ p.naifId = d.naifId ∧ p.shape = d.shape))
        (planetodeticRecsOfRow r)
      = if (r.body = "Sun" ∨ r.body = "Moon") ∧ d.shape ≠ Shape.SPHERE then 0 else 1 := by
  unfold planetodeticRecsOfRow
  rw [List.countP_append, ographic_countP_zero, Nat.add_zero]
  exact countP_oc_flatMap r d (datumRecsOfRow r) (datumRecsOfRow_shapes_nodup r) hd
    (fun d2 h2 => ((datumRecsOfRow_ids h2).1).trans ((datumRecsOfRow_ids hd).1).symm)

theorem countP_flatMap_unique {α β : Type} (p : β → Bool) (f : α → List β) (key : α → Nat)
    {l : List α} (hpw : l.Pairwise (fun x y => key x ≠ key y)) {a : α} (ha : a ∈ l)
    (hz : ∀ b ∈ l, key b ≠ key a → List.countP p (f b) = 0) :
    List.countP p (l.flatMap f) = List.countP p (f a) := by
  induction l with
  | nil => cases ha
  | cons x t ih =>
    rw [List.flatMap_cons, List.countP_append]
    obtain ⟨hx, hpwt⟩ := List.pairwise_cons.mp hpw
    rcases List.mem_cons.mp ha with rfl | hat
    · have ht0 : List.countP p (t.flatMap f) = 0 := by
        rw [List.countP_eq_zero]
        intro c hc
        obtain ⟨b, hb, hcb⟩ := List.mem_flatMap.mp hc
        have hk : key b ≠ key a := fun he => (hx b hb) he.symm
        exact (List.countP_eq_zero.mp (hz b (List.mem_cons_of_mem a hb) hk)) c hcb
      rw [ht0, Nat.add_zero]
    · rw [hz x (List.mem_cons_self x t) (hx a hat), Nat.zero_add]
      exact ih hpwt hat (fun b hb hk => hz b (List.mem_cons_of_mem x hb) hk)

/-- C4 counterexample: for the Sun row with equal axes the pipeline builds
an ELLIPSE datum, and that datum gets zero ocentric planetodetic records,
not one. -/
theorem C4_counterexample_sun_ellipse_datum :
    sunEllipseDatum ∈ datumRecords [sunRow] ∧
    (planetodeticRecords [sunRow]).countP
      (fun p => decide (p.ographic = false ∧ p.naifId = sunEllipseDatum.naifId ∧
        p.shape = sunEllipseDatum.shape)) = 0 := by
  refine ⟨by decide, by decide⟩

/-- C4 (amended): over input rows with pairwise distinct Naif ids, every
datum gets exactly one ocentric planetodetic record except the Sun and Moon
datums of non-SPHERE shape, which get none; and an ographic record is
produced only for a non-SPHERE shape, never for the bodies Sun and Moon,
and only when the processed longitude direction of the body row is
declared (non-null), the record carrying exactly that direction. -/
theorem C4_amended_ocentric_count (rows : List BodyRow)
    (hnodup : (rows.map BodyRow.naifId).Nodup) :
    (∀ d ∈ datumRecords rows,
      (planetodeticRecords rows).countP
          (fun p => decide (p.ographic = false ∧ p.naifId = d.naifId ∧ p.shape = d.shape))
        = if (d.body = "Sun" ∨ d.body = "Moon") ∧ d.shape ≠ Shape.SPHERE then 0 else 1) ∧
    (∀ p ∈ planetodeticRecords rows, p.ographic = true →
      p.shape ≠ Shape.SPHERE ∧ p.body ≠ "Sun" ∧ p.body ≠ "Moon" ∧
      ∃ r ∈ pipelineRows rows, r.naifId = p.naifId ∧ r.rotation = some p.longitudeDirection) := by
  constructor
  · intro d hd
    obtain ⟨r, hr, hdr⟩ := List.mem_flatMap.mp hd
    have hdn : d.naifId = r.naifId := (datumRecsOfRow_ids hdr).1
    have hdb : d.body = r.body := (datumRecsOfRow_ids hdr).2
    have hpw : (pipelineRows rows).Pairwise (fun a b => a.naifId ≠ b.naifId) :=
      List.pairwise_map.mp (pipelineRows_naifId_nodup hnodup)
    unfold planetodeticRecords
    rw [countP_flatMap_unique _ planetodeticRecsOfRow BodyRow.naifId hpw hr
      (fun b _ hk => countP_planetodetic_zero (fun he => hk (he.trans hdn)))]
    rw [countP_planetodetic_single hdr, hdb]
  · intro p hp hog
    obtain ⟨r, hr, hpr⟩ := List.mem_flatMap.mp hp
    obtain ⟨d, hd, hcase⟩ := mem_planetodeticRecsOfRow hpr
    rcases hcase with hoc | hog2
    · have hfalse := (mem_ocentricOfDatum hoc).2.2.2.1
      rw [hog] at hfalse
      exact absurd hfalse (by decide)
    · obtain ⟨hn, hs, hb, -, htag, -, hrot, -, -, hsm⟩ := mem_ographicOfDatum hog2
      refine ⟨?_, ?_, ?_, r, hr, ?_, hrot⟩
      · rcases htag with ⟨h1, -⟩ | ⟨h1, -⟩ <;> rw [hs, h1] <;> decide
      · rw [hb]
        exact fun he => hsm (Or.inl he)
      · rw [hb]
        exact fun he => hsm (Or.inr he)
      · exact (hn.trans (datumRecsOfRow_ids hd).1).symm

/-- C4 witness: the amended count instantiated at the Mars row and its
ELLIPSE datum, which is not a historical exception and gets exactly one
ocentric record. -/
theorem C4_amended_witness :
    (planetodeticRecords [marsRow]).countP
        (fun p => decide (p.ographic = false ∧ p.naifId = marsEllipseDatum.naifId ∧
          p.shape = marsEllipseDatum.shape))
      = if (marsEllipseDatum.body = "Sun" ∨ marsEllipseDatum.body = "Moon") ∧
          marsEllipseDatum.shape ≠ Shape.SPHERE then 0 else 1 :=
  (C4_amended_ocentric_count [marsRow] (by decide)).1 marsEllipseDatum (by decide)

/-! Claim C6: precondition on ocentric variants.  The projected ocentric
variants and the unprojected ocentric triaxial variant do assert that the
longitude direction is east, but PlanetOcentricEllipsoid.cs has no such
check and renders whatever direction the record carries. -/

/-- C6 counterexample: the unprojected ocentric ellipsoid variant loaded
with a west record renders its coordinate-system fragment silently, with
the west direction substituted, instead of failing. -/
theorem C6_counterexample_west_ocentric_renders :
    westData.longitudeDirection = "west" ∧
    planetOcentricEllipsoidCs westData = Except.ok (sphericalCsFragment "west") :=
  ⟨rfl, rfl⟩

/-- C6 (amended): when the record direction is not east, the projected
ocentric ellipsoid, the ocentric triaxial and the projected ocentric
triaxial variants fail their precondition check, while the unprojected
ocentric ellipsoid variant performs no check and renders the fragment with
the given direction. -/
theorem C6_amended_ocentric_precondition (d : CrsData)
    (h : d.longitudeDirection ≠ "east") :
    (projectedOcentricEllipsoidCs d).toOption = none ∧
    (ocentricTriaxialCs d).toOption = none ∧
    (projectedOcentricTriaxialCs d).toOption = none ∧
    planetOcentricEllipsoidCs d = Except.ok (sphericalCsFragment d.longitudeDirection) := by
  refine ⟨?_, ?_, ?_, rfl⟩ <;>
    simp [projectedOcentricEllipsoidCs, ocentricTriaxialCs, projectedOcentricTriaxialCs, h,
      Except.toOption]

/-- C6 witness: the amended statement at the concrete west record. -/
theorem C6_amended_witness :
    (projectedOcentricEllipsoidCs westData).toOption = none ∧
    (ocentricTriaxialCs westData).toOption = none ∧
    (projectedOcentricTriaxialCs westData).toOption = none ∧
    planetOcentricEllipsoidCs westData = Except.ok (sphericalCsFragment westData.longitudeDirection) :=
  C6_amended_ocentric_precondition westData (by decide)

/-! Claim C7: agreement of the longitude axis with the record direction.
The ographic ellipsoid variants and the unprojected ographic triaxial
variant substitute the record direction, but ProjectedOgraphicTriaxial.cs
substitutes the east literal and the Easting label unconditionally. -/

/-- C7 counterexample: the projected ographic triaxial variant loaded with
a west record renders an east-directed Easting axis, not the west-directed
Westing axis the record direction calls for. -/
theorem C7_counterexample_projected_ographic_triaxial :
    westData.longitudeDirection = "west" ∧
    projectedOgraphicTriaxialCs westData = Except.ok (projectedCsFragment "Easting (E)" "east") ∧
    projectedCsFragment "Easting (E)" "east" ≠ projectedCsFragment "Westing (W)" "west" :=
  ⟨rfl, rfl, by decide⟩

/-- C7 (amended): the ographic ellipsoid fragments (projected or not) and
the unprojected ographic triaxial fragment agree with the record direction,
a west projected ographic ellipsoid record in particular rendering a
west-directed Westing axis; the projected ographic triaxial fragment is the
east-directed Easting fragment whatever the record direction. -/
theorem C7_amended_axis_agreement (d : CrsData) :
    planetOgraphicEllipsoidCs d = Except.ok (ellipsoidalCsFragment d.longitudeDirection) ∧
    ographicTriaxialCs d = Except.ok (ellipsoidalCsFragment d.longitudeDirection) ∧
    (d.longitudeDirection = "west" →
      projectedOgraphicEllipsoidCs d = Except.ok (projectedCsFragment "Westing (W)" "west")) ∧
    projectedOgraphicTriaxialCs d = Except.ok (projectedCsFragment "Easting (E)" "east") := by
  refine ⟨rfl, rfl, fun h => ?_, rfl⟩
  simp [projectedOgraphicEllipsoidCs, h]

/-- C7 witness: the amended statement at the concrete west record. -/
theorem C7_amended_witness :
    projectedOgraphicEllipsoidCs westData = Except.ok (projectedCsFragment "Westing (W)" "west") :=
  (C7_amended_axis_agreement westData).2.2.1 rfl

/-! Claim C8: the compose-and-get state machine.  The wkt attribute starts
as None and the getter returns it as it is: there is no NotRendered
failure, the getter silently yields the null sentinel before computeWKT. -/

/-- C8 counterexample: calling the getter on a freshly constructed instance
returns the None sentinel, for the geodetic and the projected interface
alike; nothing fails. -/
theorem C8_counterexample_getter_before_compute :
    getWKTGeodetic geodeticInitState = none ∧
    getWKTProjected projectedInitState = none :=
  ⟨rfl, rfl⟩

/-- C8 (amended): before computeWKT the getter returns the None sentinel
rather than failing; computeWKT composes the top-level template and stores
the text, after which the getter returns it; computeWKT is idempotent, so
recomputing leaves the state unchanged. -/
theorem C8_amended_state_machine (f : GeodeticFragments) (g : ProjectedFragments)
    (s : GeodeticState) (t : ProjectedState) :
    getWKTGeodetic geodeticInitState = none ∧
    getWKTProjected projectedInitState = none ∧
    getWKTGeodetic (computeWKTGeodetic f s) = some (geodeticCrsText f) ∧
    getWKTProjected (computeWKTProjected g t) = some (projectedCrsText g) ∧
    computeWKTGeodetic f (computeWKTGeodetic f s) = computeWKTGeodetic f s ∧
    computeWKTProjected g (computeWKTProjected g t) = computeWKTProjected g t :=
  ⟨rfl, rfl, rfl, rfl, rfl, rfl⟩

/-! Claim C9: nan parameter slots are omitted and the others are rendered
in slot order. -/

/-- The slot loop produces exactly the renderings of the non-nan slots in
list order, provided every non-nan slot renders. -/
theorem computeParamsAux_eq_filterMap (l : List (String × PyFloat))
    (h : ∀ nv ∈ l, (renderSlot nv).isSome = true ∨ nv.2 = PyFloat.nan) :
    computeParamsAux l = Except.ok (l.filterMap renderSlot) := by
  induction l with
  | nil => rfl
  | cons nv rest ih =>
    obtain ⟨nm, v⟩ := nv
    have hrest : ∀ nv ∈ rest, (renderSlot nv).isSome = true ∨ nv.2 = PyFloat.nan :=
      fun nv hm => h nv (List.mem_cons_of_mem _ hm)
    cases v with
    | nan =>
      simpa [computeParamsAux, renderSlot] using ih hrest
    | val s =>
      have hok := h (nm, PyFloat.val s) (List.mem_cons_self _ _)
      simp [renderSlot] at hok
      obtain ⟨r, hr⟩ := Option.isSome_iff_exists.mp hok
      have hrp : renderParam nm s = Except.ok r := by
        cases hrp : renderParam nm s with
        | error e => rw [hrp] at hr; cases hr
        | ok r2 => rw [hrp] at hr; simp [Except.toOption] at hr; rw [hr]
      simp [computeParamsAux, hrp, ih hrest, List.filterMap_cons, renderSlot, Except.toOption]

/-- The params accumulation of ProjectionEllipsoid produces the
concatenation of the renderings of the non-nan slots in list order,
provided every non-nan slot renders. -/
theorem computeParamsStringAux_eq (l : List (String × PyFloat))
    (h : ∀ nv ∈ l, (renderSlotEllipsoid nv).isSome = true ∨ nv.2 = PyFloat.nan) :
    computeParamsStringAux l = Except.ok ((l.filterMap renderSlotEllipsoid).foldr (· ++ ·) "") := by
  induction l with
  | nil => rfl
  | cons nv rest ih =>
    obtain ⟨nm, v⟩ := nv
    have hrest : ∀ nv ∈ rest, (renderSlotEllipsoid nv).isSome = true ∨ nv.2 = PyFloat.nan :=
      fun nv hm => h nv (List.mem_cons_of_mem _ hm)
    cases v with
    | nan =>
      simpa [computeParamsStringAux, renderSlotEllipsoid] using ih hrest
    | val s =>
      have hok := h (nm, PyFloat.val s) (List.mem_cons_self _ _)
      simp [renderSlotEllipsoid] at hok
      obtain ⟨r, hr⟩ := Option.isSome_iff_exists.mp hok
      have hrp : renderParamEllipsoid nm s = Except.ok r := by
        cases hrp : renderParamEllipsoid nm s with
        | error e => rw [hrp] at hr; cases hr
        | ok r2 => rw [hrp] at hr; simp [Except.toOption] at hr; rw [hr]
      simp [computeParamsStringAux, hrp, ih hrest, List.filterMap_cons, renderSlotEllipsoid,
        Except.toOption]

/-- C9: for a projected record whose declared (non-nan) parameter names all
resolve in the authority table, the rendered parameter list is exactly the
renderings of the non-nan slots, taken in the fixed slot order 1 to 6; a
nan slot contributes no PARAMETER entry at all.  The same holds for the
string-accumulating variant of ProjectionEllipsoid. -/
theorem C9_nan_parameters_omitted (d : ProjParams)
    (h1 : ∀ nv ∈ paramsList d, (renderSlot nv).isSome = true ∨ nv.2 = PyFloat.nan)
    (h2 : ∀ nv ∈ paramsList d, (renderSlotEllipsoid nv).isSome = true ∨ nv.2 = PyFloat.nan) :
    computeParameters d = Except.ok ((paramsList d).filterMap renderSlot) ∧
    computeParamsString d
      = Except.ok (((paramsList d).filterMap renderSlotEllipsoid).foldr (· ++ ·) "") :=
  ⟨computeParamsAux_eq_filterMap (paramsList d) h1,
   computeParamsStringAux_eq (paramsList d) h2⟩

/-- C9 witness: the statement at the Sinusoidal slots, where the last three
slots are nan and exactly three PARAMETER entries come out, in slot
order. -/
theorem C9_witness :
    computeParameters sinusoidalParams
      = Except.ok ((paramsList sinusoidalParams).filterMap renderSlot) ∧
    computeParamsString sinusoidalParams
      = Except.ok (((paramsList sinusoidalParams).filterMap renderSlotEllipsoid).foldr (· ++ ·) "") :=
  C9_nan_parameters_omitted sinusoidalParams (by decide) (by decide)

/-! Claim C10: the ANCHOR clause of the DATUM fragment. -/

/-- C10: the anchor component of a DATUM fragment is empty exactly when the
prime-meridian name is the Reference_Meridian sentinel; otherwise it is the
ANCHOR clause carrying the name and value; and both the biaxial and the
triaxial DATUM fragments are their templates with that anchor component
spliced in after the shape element. -/
theorem C10_anchor_iff_not_sentinel (d : CrsData) :
    (anchorClause d = "" ↔ d.primeMeridianName = "Reference_Meridian") ∧
    (d.primeMeridianName ≠ "Reference_Meridian" →
      anchorClause d
        = ",\n            ANCHOR[\"" ++ d.primeMeridianName ++ ": " ++ d.primeMeridianValue ++ "\"]") ∧
    biaxialDatum d
      = "DATUM[\"" ++ d.datum_name ++ "\",\n            ELLIPSOID[\"" ++ d.ellipsoid_name
        ++ "\", " ++ d.semiMajorAxis ++ ", " ++ d.inverseFlatenning
        ++ ", LENGTHUNIT[\"metre\", 1]]" ++ anchorClause d
        ++ "\n        ],\n        PRIMEM[\"Reference Meridian\", 0.0, ANGLEUNIT[\"degree\", 0.017453292519943295, ID[\"EPSG\", 9122]]]" ∧
    triaxialDatum d
      = "DATUM[\"" ++ d.datum_name ++ "\",\n            TRIAXIAL[\"" ++ d.ellipsoid_name
        ++ "\", " ++ d.semiMajorAxis ++ ", " ++ d.semiMedianAxis ++ ", " ++ d.semiMinorAxis
        ++ ", LENGTHUNIT[\"metre\", 1, ID[\"EPSG\", 9001]]]" ++ anchorClause d
        ++ "\n        ],\n        PRIMEM[\"Reference Meridian\", 0.0, ANGLEUNIT[\"degree\", 0.017453292519943295, ID[\"EPSG\", 9122]]]" := by
  refine ⟨?_, fun h => by simp [anchorClause, h], rfl, rfl⟩
  constructor
  · intro h
    by_contra hne
    simp only [anchorClause, if_neg hne] at h
    have hlen := congrArg String.length h
    simp only [String.length_append] at hlen
    have h22 : (",\n            ANCHOR[\"").length = 22 := rfl
    have hc : (": ").length = 2 := rfl
    have hq : ("\"]").length = 2 := rfl
    have hz : ("" : String).length = 0 := rfl
    omega
  · intro h
    simp [anchorClause, h]

/-- C10 witness: at a record anchored to the Viking 1 lander meridian the
anchor component is the ANCHOR clause of that meridian. -/
theorem C10_witness :
    anchorClause anchoredData
      = ",\n            ANCHOR[\"" ++ anchoredData.primeMeridianName ++ ": "
        ++ anchoredData.primeMeridianValue ++ "\"]" :=
  (C10_anchor_iff_not_sentinel anchoredData).2.1 (by decide)

end CsvForWKT
